import Mathlib

/-!
Verification of the request-scoped audit-stamping middleware
(audit_log/middleware.py) against its specification.

Shallow embedding conventions:

- A record instance is a total map from attribute names to values
  (Python objects allow arbitrary setattr); `setattr` is functional update.
- Record types (signal senders) are numbered by Nat; field names are strings.
- The field registry (audit_log/registration.py is referenced by the
  middleware but not present in the source tree) is modelled from the spec,
  section 3 and 4.1: a map from marker-field kind and record type to the
  ordered list of declared field names; a type is in a registry exactly
  when it has at least one field of that kind.
- The signal dispatcher (Django's signals.pre_save / post_save, an external
  collaborator per spec section 6) is a registration table keyed by
  dispatch_uid; connect with an already-present uid keeps the existing
  receiver, disconnect removes the uid, and sending a signal invokes every
  registered receiver in registration order.
- Fallible Python code is embedded with Except; the error value carries the
  state at the moment the exception escapes.
-/

/-- A user as the middleware sees it: an identity plus the
is_authenticated predicate. -/
structure User where
  id : Nat
  isAuth : Bool
deriving DecidableEq

/-- A session object: request.session.session_key may itself be None. -/
structure Sess where
  key : Option String
deriving DecidableEq

/-- Values an instance attribute can hold: a stamped identity, a stamped
session token, or any other payload. -/
inductive Value where
  | ident : Option User → Value
  | sess : Option String → Value
  | other : Nat → Value
deriving DecidableEq

/-- A record instance: a total assignment of attribute names to values. -/
abbrev Instance : Type := String → Value

/-- Python setattr on an instance, as functional update. -/
def setattr (inst : Instance) (f : String) (v : Value) : Instance :=
  fun a => if a = f then v else inst a

/-- Modelled from the spec (sections 3, 4.1): the field registry of
audit_log/registration.py and the four marker-field kinds of
audit_log/models/fields.py, neither present in the source tree. For each
kind it gives the ordered field names declared on each exact record type;
`fields_of` returns the empty sequence for undeclared types, and a type is
in the registry for a kind exactly when that list is nonempty. -/
structure Registry where
  lastUser : Nat → List String
  lastSession : Nat → List String
  creatingUser : Nat → List String
  creatingSession : Nat → List String

/-- The body of the for loops in the handlers: set every field name in the
list to the same value, in order. -/
def setAll (l : List String) (v : Value) (inst : Instance) : Instance :=
  l.foldl (fun i f => setattr i f v) inst

/-- Transcribes _update_pre_save_info_common (middleware.py lines 37-47):
if the sender is in the LastUserField registry, set each of its fields to
the captured user; then likewise for LastSessionKeyField with the captured
session key. -/
def update_pre_save_info_common (reg : Registry) (user : Option User)
    (session : Option String) (sender : Nat) (inst : Instance) : Instance :=
  let inst1 :=
    if (reg.lastUser sender).isEmpty then inst
    else setAll (reg.lastUser sender) (Value.ident user) inst
  if (reg.lastSession sender).isEmpty then inst1
  else setAll (reg.lastSession sender) (Value.sess session) inst1

/-- A request as the sync and ASGI middlewares see it. `userAttr` is the
request.user attribute when present; `sessionAttr` is the request.session
attribute when present (absent when session middleware is not installed);
`rid` identifies the specific request object, standing for the object
identity that enters the dispatch_uid; `scopeUser` and `scopeSession` model
the optional user and _session_key entries of the ASGI scope. -/
structure Req where
  method : String
  userAttr : Option User
  sessionAttr : Option Sess
  rid : Nat
  scopeUser : Option User
  scopeSession : Option (Option String)
deriving DecidableEq

/-- The per-request values a registered signal receiver closes over:
partial(_update_pre_save_info_common, user, session). -/
structure Handler where
  user : Option User
  sessionKey : Option String
deriving DecidableEq

/-- A signal's registration table: dispatch_uid paired with the receiver. -/
abbrev Dispatcher : Type := List (Nat × Handler)

/-- Signal.connect with a dispatch_uid: if a receiver is already registered
under the uid the call is a no-op, otherwise the receiver is appended. -/
def connect (k : Nat) (h : Handler) (d : Dispatcher) : Dispatcher :=
  if d.any (fun kh => kh.1 == k) then d else d ++ [(k, h)]

/-- Signal.disconnect with a dispatch_uid: removes the registration under
the uid; idempotent, a no-op for an absent uid. -/
def disconnect (k : Nat) (d : Dispatcher) : Dispatcher :=
  d.filter (fun kh => kh.1 != k)

/-- How many receivers are registered under a given dispatch_uid. -/
def countKey (k : Nat) (d : Dispatcher) : Nat :=
  (d.filter (fun kh => kh.1 == k)).length

/-- The pre_save and post_save registration tables together. -/
structure MState where
  pre : Dispatcher
  post : Dispatcher
deriving DecidableEq

/-- Both tables empty. -/
def emptyM : MState := ⟨[], []⟩

/-- Errors the embedded Python code can raise. -/
inductive PyErr where
  | attributeError
deriving DecidableEq

/-- The safe-method set of middleware.py lines 193 and 286. -/
def safeMethods : List String := [r"GET", r"HEAD", r"OPTIONS", r"TRACE"]

/-- The user capture of UserLoggingMiddleware.process_request lines
195-198: request.user when the attribute exists and is authenticated,
else None. -/
def captureUser (req : Req) : Option User :=
  match req.userAttr with
  | some u => if u.isAuth then some u else none
  | none => none

/-- Transcribes UserLoggingMiddleware.process_request (lines 190-209).
Returns early when the global disable flag is set or the method is safe;
otherwise captures user and session and connects the two partially-applied
receivers under dispatch_uid (class, request). request.session is
dereferenced unguarded, so a request with no session attribute raises
AttributeError. -/
def processRequestSync (flag : Bool) (req : Req) (st : MState) :
    Except PyErr MState :=
  if flag then Except.ok st
  else if safeMethods.contains req.method then Except.ok st
  else
    match req.sessionAttr with
    | none => Except.error PyErr.attributeError
    | some s =>
      let h : Handler := ⟨captureUser req, s.key⟩
      Except.ok ⟨connect req.rid h st.pre, connect req.rid h st.post⟩

/-- Transcribes UserLoggingMiddleware.process_response (lines 211-216):
when the disable flag is set it returns None without touching the tables;
otherwise it disconnects both uids and returns the response. -/
def processResponseSync (flag : Bool) (k : Nat) (st : MState) (resp : Nat) :
    MState × Option Nat :=
  if flag then (st, none)
  else (⟨disconnect k st.pre, disconnect k st.post⟩, some resp)

/-- Transcribes UserLoggingMiddleware.process_exception (lines 218-223). -/
def processExceptionSync (flag : Bool) (k : Nat) (st : MState) : MState :=
  if flag then st
  else ⟨disconnect k st.pre, disconnect k st.post⟩

/-- The instance actually handed to the persistence write: the pre_save
signal invokes every registered receiver, in registration order, on the
in-memory instance before the write executes. -/
def persistedPre (reg : Registry) (d : Dispatcher) (sender : Nat)
    (inst : Instance) : Instance :=
  d.foldl
    (fun i kh => update_pre_save_info_common reg kh.2.user kh.2.sessionKey sender i)
    inst

/-- The user capture of ASGIUserLoggingMiddleware._process_request lines
290-295: the authenticated request.user, else the scope's user entry,
else None. -/
def asgiCaptureUser (req : Req) : Option User :=
  if (match req.userAttr with
      | some u => u.isAuth
      | none => false) then req.userAttr
  else
    match req.scopeUser with
    | some u => some u
    | none => none

/-- The session capture of ASGIUserLoggingMiddleware._process_request lines
298-303: request.session.session_key when the attribute chain exists, else
the scope session's _session_key, else None. -/
def asgiCaptureSession (req : Req) : Option String :=
  match req.sessionAttr with
  | some s => s.key
  | none =>
    match req.scopeSession with
    | some k => k
    | none => none

/-- Transcribes ASGIUserLoggingMiddleware._process_request (lines 283-319):
skip on the disable flag or a safe method, otherwise connect the wrapped
receivers under dispatch_uid (class, request). Every attribute access is
hasattr-guarded, so this capture is total. -/
def processRequestAsgi (flag : Bool) (req : Req) (st : MState) : MState :=
  if flag then st
  else if safeMethods.contains req.method then st
  else
    let h : Handler := ⟨asgiCaptureUser req, asgiCaptureSession req⟩
    ⟨connect req.rid h st.pre, connect req.rid h st.post⟩

/-- Transcribes ASGIUserLoggingMiddleware._cleanup_signals (lines 321-325). -/
def cleanupSignals (flag : Bool) (k : Nat) (st : MState) : MState :=
  if flag then st
  else ⟨disconnect k st.pre, disconnect k st.post⟩

/-- An outbound ASGI message: http.response.start, http.response.body with
its more_body flag, or anything else. -/
inductive Msg where
  | start : Msg
  | body : Bool → Msg
  | other : Msg
deriving DecidableEq

/-- Whether a message is an http.response.body message. -/
def Msg.isBody : Msg → Bool
  | Msg.body _ => true
  | _ => false

/-- Whether a message is the http.response.start message. -/
def Msg.isStart : Msg → Bool
  | Msg.start => true
  | _ => false

/-- The state of ASGIResponseWrapper: its started flag, the signal tables
it cleans up into, and how many times cleanup has run. -/
structure AWrap where
  started : Bool
  st : MState
  cleanups : Nat

/-- Transcribes ASGIResponseWrapper.send (lines 340-347): the first
http.response.start message sets started; afterwards every
http.response.body message triggers cleanup — the more_body flag is never
consulted. The message itself is then forwarded unchanged. -/
def asgiWrapperSend (flag : Bool) (k : Nat) (w : AWrap) (m : Msg) : AWrap :=
  if !w.started && m.isStart then { w with started := true }
  else if w.started && m.isBody then
    { w with st := cleanupSignals flag k w.st, cleanups := w.cleanups + 1 }
  else w

/-- Feed a whole outbound message stream through the response wrapper. -/
def runWrapper (flag : Bool) (k : Nat) (msgs : List Msg) (w : AWrap) : AWrap :=
  msgs.foldl (asgiWrapperSend flag k) w

/-- How many times the wrapper runs cleanup over a given message stream
(fresh wrapper, as built per request in __call__ line 275). -/
def cleanupCount (msgs : List Msg) : Nat :=
  (runWrapper false 0 msgs ⟨false, emptyM, 0⟩).cleanups

/-- Transcribes the body of ASGIUserLoggingMiddleware.__call__ after
registration (lines 275-281): the wrapped app emits `msgs` through the
response wrapper; if the app raises, cleanup runs once more and the
exception is re-raised. Yields the final signal tables. -/
def asgiFinish (flag : Bool) (req : Req) (msgs : List Msg)
    (appRaises : Bool) (st : MState) : MState :=
  let w := runWrapper flag req.rid msgs ⟨false, st, 0⟩
  if appRaises then cleanupSignals flag req.rid w.st else w.st

/-- The state a record instance and its managers are in during a save:
the in-memory instance, the last persisted row image, the tracking flag of
the instance's audit-log managers, and how many persistence writes have
executed. -/
structure SaveState where
  inst : Instance
  persisted : Instance
  tracking : Bool
  saveCount : Nat

/-- One persistence write: the current in-memory instance becomes the
stored row. -/
def rawPersist (st : SaveState) : SaveState :=
  { st with persisted := st.inst, saveCount := st.saveCount + 1 }

/-- Modelled from the spec (section 4.4 and glossary): a save issued while
tracking is disabled does not re-trigger the pre/post stamping handlers —
audit_log/models/managers.py, which implements the flag the dispatch path
consults, is not in the source tree. Such a save only persists. -/
def nestedSave (st : SaveState) : SaveState := rawPersist st

/-- Transcribes _perform_post_save_update (lines 58-63): set the field,
disable tracking on the instance's audit-log managers, save, re-enable.
The successful path; the save itself is the suppressed nested save. -/
def performPostSaveUpdate (st : SaveState) (f : String) (v : Value) :
    SaveState :=
  let st1 := { st with inst := setattr st.inst f v }
  let st2 := { st1 with tracking := false }
  let st3 := nestedSave st2
  { st3 with tracking := true }

/-- Transcribes _perform_post_save_update (lines 58-63) with the outcome of
instance.save() explicit: saveFails models the nested save raising. The
source wraps nothing in try/finally, so when the save raises the function
propagates the exception immediately and enable_tracking never runs; the
error value is the state at the moment the exception escapes. -/
def performPostSaveUpdateExc (saveFails : Bool) (st : SaveState) (f : String)
    (v : Value) : Except SaveState SaveState :=
  let st1 := { st with inst := setattr st.inst f v }
  let st2 := { st1 with tracking := false }
  if saveFails then Except.error st2
  else
    let st3 := nestedSave st2
    Except.ok { st3 with tracking := true }

/-- Whether an Except value is the error case. -/
def excIsError {α β : Type} : Except α β → Bool
  | Except.error _ => true
  | Except.ok _ => false

/-- The tracking flag of the state a _perform_post_save_update call ends
in, on either outcome. -/
def excTracking : Except SaveState SaveState → Bool
  | Except.error e => e.tracking
  | Except.ok r => r.tracking

/-- The for loops of _update_post_save_info_common: one suppressed nested
save per registered creating field. -/
def postFold (v : Value) (st : SaveState) (l : List String) : SaveState :=
  l.foldl (fun a f => performPostSaveUpdate a f v) st

/-- Transcribes _update_post_save_info_common (lines 119-130): only when
the save created the record, stamp each CreatingUserField with the captured
user and each CreatingSessionKeyField with the captured session key, each
via one suppressed nested save. -/
def update_post_save_info_common (reg : Registry) (user : Option User)
    (session : Option String) (sender : Nat) (st : SaveState)
    (created : Bool) : SaveState :=
  if created then
    let st1 :=
      if (reg.creatingUser sender).isEmpty then st
      else postFold (Value.ident user) st (reg.creatingUser sender)
    if (reg.creatingSession sender).isEmpty then st1
    else postFold (Value.sess session) st1 (reg.creatingSession sender)
  else st

/-- A full tracked save while this request's receivers are registered:
the pre_save receiver stamps the in-memory instance, the write persists it,
and the post_save receiver runs the creating-field stamping. A save issued
while tracking is disabled fires no receivers (suppression, spec 4.4) and
only persists. -/
def modelSave (reg : Registry) (user : Option User) (session : Option String)
    (sender : Nat) (st : SaveState) (isNew : Bool) : SaveState :=
  if st.tracking then
    let st1 :=
      { st with inst := update_pre_save_info_common reg user session sender st.inst }
    let st2 := rawPersist st1
    update_post_save_info_common reg user session sender st2 isNew
  else nestedSave st

/-- Field names used by the concrete scenarios. -/
def fldModifiedBy : String := r"modified_by"

/-- Field name for the last-session marker in the scenarios. -/
def fldLastSess : String := r"last_sess"

/-- Field name for the creating-user marker in the scenarios. -/
def fldCreatedBy : String := r"created_by"

/-- Field name for the creating-session marker in the scenarios. -/
def fldCreatedSess : String := r"created_sess"

/-- An unregistered attribute name used by the frame-property scenarios. -/
def fldOther : String := r"payload"

/-- A registry declaring all four marker-field kinds on record type 0. -/
def regAll : Registry :=
  ⟨fun t => if t = 0 then [fldModifiedBy] else [],
   fun t => if t = 0 then [fldLastSess] else [],
   fun t => if t = 0 then [fldCreatedBy] else [],
   fun t => if t = 0 then [fldCreatedSess] else []⟩

/-- An authenticated user. -/
def userA : User := ⟨1, true⟩

/-- A second authenticated user, distinct from userA. -/
def userB : User := ⟨2, true⟩

/-- A session whose key is abc123. -/
def sessA : Sess := ⟨some (r"abc123")⟩

/-- A POST request by userA with session key abc123. -/
def reqA : Req := ⟨r"POST", some userA, some sessA, 1, none, none⟩

/-- A POST request by userB with session key sB, a different request
object than reqA. -/
def reqB : Req := ⟨r"POST", some userB, some ⟨some (r"sB")⟩, 2, none, none⟩

/-- A POST request carrying no session attribute at all (session
middleware not installed). -/
def reqNoSession : Req := ⟨r"POST", some userA, none, 3, none, none⟩

/-- A GET request. -/
def reqGet : Req := ⟨r"GET", some userA, some ⟨some (r"abc123")⟩, 4, none, none⟩

/-- An instance whose attributes all start as untouched payload. -/
def inst0 : Instance := fun _ => Value.other 0

/-- A fresh save state for inst0 with tracking enabled and no writes yet. -/
def st0 : SaveState := ⟨inst0, inst0, true, 0⟩

/-- The signal tables after reqA and then reqB registered, both still in
flight (the states the claims about concurrent requests examine). -/
def stAB : MState :=
  match processRequestSync false reqA emptyM with
  | Except.ok st1 =>
    match processRequestSync false reqB st1 with
    | Except.ok st2 => st2
    | Except.error _ => emptyM
  | Except.error _ => emptyM

theorem setAll_skips (l : List String) (v : Value) (inst : Instance)
    (f : String) (hf : f ∉ l) : setAll l v inst f = inst f := by
  induction l generalizing inst with
  | nil => rfl
  | cons g t ih =>
    have hfg : f ≠ g := fun h => hf (h ▸ List.mem_cons_self g t)
    have hft : f ∉ t := fun h => hf (List.mem_cons_of_mem g h)
    simp only [setAll, List.foldl_cons] at *
    rw [ih (setattr inst g v) hft]
    simp [setattr, hfg]

theorem setAll_sets (l : List String) (v : Value) (inst : Instance)
    (f : String) (hf : f ∈ l) : setAll l v inst f = v := by
  induction l generalizing inst with
  | nil => exact absurd hf (List.not_mem_nil f)
  | cons g t ih =>
    simp only [setAll, List.foldl_cons]
    by_cases hft : f ∈ t
    · exact ih (setattr inst g v) hft
    · have hfg : f = g := by
        rcases List.mem_cons.mp hf with h | h
        · exact h
        · exact absurd h hft
      have : setAll t v (setattr inst g v) f = setattr inst g v f :=
        setAll_skips t v (setattr inst g v) f hft
      rw [show (List.foldl (fun i f => setattr i f v) (setattr inst g v) t)
            = setAll t v (setattr inst g v) from rfl, this]
      simp [setattr, hfg]

theorem pre_save_sets_lastUser (reg : Registry) (user : Option User)
    (session : Option String) (sender : Nat) (inst : Instance) (f : String)
    (hf : f ∈ reg.lastUser sender) (hfs : f ∉ reg.lastSession sender) :
    update_pre_save_info_common reg user session sender inst f
      = Value.ident user := by
  unfold update_pre_save_info_common
  have hlu : (reg.lastUser sender).isEmpty = false := by
    cases h : reg.lastUser sender with
    | nil => rw [h] at hf; exact absurd hf (List.not_mem_nil f)
    | cons a t => rfl
  simp only [hlu, Bool.false_eq_true, if_false]
  cases hls : (reg.lastSession sender).isEmpty with
  | true =>
    simp only [if_true]
    exact setAll_sets _ _ _ _ hf
  | false =>
    simp only [Bool.false_eq_true, if_false]
    rw [setAll_skips _ _ _ _ hfs]
    exact setAll_sets _ _ _ _ hf

theorem pre_save_sets_lastSession (reg : Registry) (user : Option User)
    (session : Option String) (sender : Nat) (inst : Instance) (f : String)
    (hf : f ∈ reg.lastSession sender) :
    update_pre_save_info_common reg user session sender inst f
      = Value.sess session := by
  unfold update_pre_save_info_common
  have hls : (reg.lastSession sender).isEmpty = false := by
    cases h : reg.lastSession sender with
    | nil => rw [h] at hf; exact absurd hf (List.not_mem_nil f)
    | cons a t => rfl
  simp only [hls, Bool.false_eq_true, if_false]
  cases hlu : (reg.lastUser sender).isEmpty <;>
    simp only [Bool.false_eq_true, if_false, if_true] <;>
    exact setAll_sets _ _ _ _ hf

theorem pre_save_frame (reg : Registry) (user : Option User)
    (session : Option String) (sender : Nat) (inst : Instance) (f : String)
    (hfu : f ∉ reg.lastUser sender) (hfs : f ∉ reg.lastSession sender) :
    update_pre_save_info_common reg user session sender inst f = inst f := by
  unfold update_pre_save_info_common
  cases hls : (reg.lastSession sender).isEmpty <;>
    cases hlu : (reg.lastUser sender).isEmpty <;>
    simp only [Bool.false_eq_true, if_false, if_true] <;>
    first
      | rfl
      | (rw [setAll_skips _ _ _ _ hfs, setAll_skips _ _ _ _ hfu])
      | rw [setAll_skips _ _ _ _ hfs]
      | rw [setAll_skips _ _ _ _ hfu]

theorem countKey_disconnect (k : Nat) (d : Dispatcher) :
    countKey k (disconnect k d) = 0 := by
  induction d with
  | nil => rfl
  | cons a t ih =>
    by_cases h : a.1 = k
    · have h1 : (a.1 != k) = false := by simp [h]
      simp only [disconnect, countKey, List.filter_cons, h1] at *
      exact ih
    · have h1 : (a.1 != k) = true := by simp [h]
      have h2 : (a.1 == k) = false := by simp [h]
      simp only [disconnect, countKey, List.filter_cons, h1, h2, if_true,
        if_false, Bool.false_eq_true] at *
      exact ih

theorem cleanup_clears (k : Nat) (st : MState) :
    countKey k (cleanupSignals false k st).pre = 0 ∧
    countKey k (cleanupSignals false k st).post = 0 := by
  constructor <;> simp only [cleanupSignals, Bool.false_eq_true, if_false] <;>
    exact countKey_disconnect k _

theorem runWrapper_cons (flag : Bool) (k : Nat) (m : Msg) (t : List Msg)
    (w : AWrap) :
    runWrapper flag k (m :: t) w = runWrapper flag k t (asgiWrapperSend flag k w m) :=
  rfl

theorem wrapperSend_preserves_clear (k : Nat) (w : AWrap) (m : Msg)
    (h : countKey k w.st.pre = 0 ∧ countKey k w.st.post = 0) :
    countKey k ((asgiWrapperSend false k w m).st).pre = 0 ∧
    countKey k ((asgiWrapperSend false k w m).st).post = 0 := by
  unfold asgiWrapperSend
  cases h1 : (!w.started && m.isStart) with
  | true => simpa using h
  | false =>
    cases h2 : (w.started && m.isBody) with
    | true =>
      simpa using cleanup_clears k w.st
    | false => simpa using h

theorem runWrapper_preserves_clear (k : Nat) (msgs : List Msg) (w : AWrap)
    (h : countKey k w.st.pre = 0 ∧ countKey k w.st.post = 0) :
    countKey k ((runWrapper false k msgs w).st).pre = 0 ∧
    countKey k ((runWrapper false k msgs w).st).post = 0 := by
  induction msgs generalizing w with
  | nil => exact h
  | cons m t ih =>
    rw [runWrapper_cons]
    exact ih _ (wrapperSend_preserves_clear k w m h)

theorem wrapperSend_keeps_started (k : Nat) (w : AWrap) (m : Msg)
    (h : w.started = true) : (asgiWrapperSend false k w m).started = true := by
  unfold asgiWrapperSend
  cases h2 : (w.started && m.isBody) <;> simp [h, h2]

theorem runWrapper_body_clears (k : Nat) (msgs : List Msg) (w : AWrap)
    (hst : w.started = true) (hb : msgs.any Msg.isBody = true) :
    countKey k ((runWrapper false k msgs w).st).pre = 0 ∧
    countKey k ((runWrapper false k msgs w).st).post = 0 := by
  induction msgs generalizing w with
  | nil => simp at hb
  | cons m t ih =>
    rw [runWrapper_cons]
    cases hm : m.isBody with
    | true =>
      have hw1 : (asgiWrapperSend false k w m).st = cleanupSignals false k w.st := by
        simp [asgiWrapperSend, hst, hm]
      have hw : countKey k ((asgiWrapperSend false k w m).st).pre = 0 ∧
          countKey k ((asgiWrapperSend false k w m).st).post = 0 := by
        rw [hw1]; exact cleanup_clears k w.st
      exact runWrapper_preserves_clear k t _ hw
    | false =>
      have hbt : t.any Msg.isBody = true := by
        simpa [hm] using hb
      exact ih (asgiWrapperSend false k w m) (wrapperSend_keeps_started k w m hst) hbt

theorem performPostSaveUpdate_inst (st : SaveState) (f : String) (v : Value) :
    (performPostSaveUpdate st f v).inst = setattr st.inst f v := rfl

theorem performPostSaveUpdate_count (st : SaveState) (f : String) (v : Value) :
    (performPostSaveUpdate st f v).saveCount = st.saveCount + 1 := rfl

theorem postFold_inst (v : Value) (st : SaveState) (l : List String) :
    (postFold v st l).inst = setAll l v st.inst := by
  induction l generalizing st with
  | nil => rfl
  | cons f t ih =>
    show (postFold v (performPostSaveUpdate st f v) t).inst
      = setAll t v (setattr st.inst f v)
    rw [ih]
    rfl

theorem postFold_count (v : Value) (st : SaveState) (l : List String) :
    (postFold v st l).saveCount = st.saveCount + l.length := by
  induction l generalizing st with
  | nil => rfl
  | cons f t ih =>
    show (postFold v (performPostSaveUpdate st f v) t).saveCount
      = st.saveCount + (t.length + 1)
    rw [ih, performPostSaveUpdate_count]
    omega

theorem guardFold_count (v : Value) (st : SaveState) (l : List String) :
    (if l.isEmpty then st else postFold v st l).saveCount
      = st.saveCount + l.length := by
  cases l with
  | nil => rfl
  | cons f t =>
    simp only [List.isEmpty_cons, Bool.false_eq_true, if_false]
    exact postFold_count v st (f :: t)

theorem guardFold_inst (v : Value) (st : SaveState) (l : List String) :
    (if l.isEmpty then st else postFold v st l).inst = setAll l v st.inst := by
  cases l with
  | nil => rfl
  | cons f t =>
    simp only [List.isEmpty_cons, Bool.false_eq_true, if_false]
    exact postFold_inst v st (f :: t)

/-- Claim C10: a pre-write handler invocation mutates only the attributes
registered as LastModifyingIdentity or LastSessionToken fields for the
exact sender type; every other attribute of the instance is unchanged (and
hence a sender with no registered fields leaves the whole instance
unchanged). -/
theorem preSaveHandler_frame (reg : Registry) (user : Option User)
    (session : Option String) (sender : Nat) (inst : Instance) (a : String)
    (h1 : a ∉ reg.lastUser sender) (h2 : a ∉ reg.lastSession sender) :
    update_pre_save_info_common reg user session sender inst a = inst a :=
  pre_save_frame reg user session sender inst a h1 h2

/-- Witness for C10 at a concrete unregistered attribute. -/
theorem preSaveHandler_frame_witness :
    fldOther ∉ regAll.lastUser 0 ∧ fldOther ∉ regAll.lastSession 0 ∧
    update_pre_save_info_common regAll (some userA) (some (r"abc123")) 0
      inst0 fldOther = inst0 fldOther :=
  ⟨by decide, by decide,
    preSaveHandler_frame regAll (some userA) (some (r"abc123")) 0 inst0
      fldOther (by decide) (by decide)⟩

/-- Claim C4 is violated by the code: _perform_post_save_update has no
try/finally, so when the nested save raises, the exception escapes with
tracking still disabled on the instance (enable_tracking never runs); only
the success path re-enables it. Evaluated at a concrete failing save. -/
theorem postSave_failure_leaves_tracking_disabled :
    excIsError (performPostSaveUpdateExc true st0 fldCreatedBy
      (Value.ident (some userA))) = true ∧
    excTracking (performPostSaveUpdateExc true st0 fldCreatedBy
      (Value.ident (some userA))) = false ∧
    excTracking (performPostSaveUpdateExc false st0 fldCreatedBy
      (Value.ident (some userA))) = true :=
  ⟨rfl, rfl, rfl⟩

/-- Claim C5 is violated by the code: ASGIResponseWrapper.send runs cleanup
on every http.response.body message after the start message, never
consulting more_body. For a response streamed as start, body(more=true),
body(more=false), cleanup runs twice, and it has already run once right
after the non-final chunk, before the body is fully sent. -/
theorem wrapper_cleanup_per_body_chunk :
    cleanupCount [Msg.start, Msg.body true, Msg.body false] = 2 ∧
    cleanupCount [Msg.start, Msg.body true] = 1 := by
  constructor <;> rfl

/-- Claim C8 is violated by the code: the sync process_request dereferences
request.session unguarded, so a POST request with no session attached
propagates AttributeError out of capture instead of falling back to None
(the ASGI variant hasattr-guards the same access and stays total). -/
theorem processRequest_raises_without_session :
    processRequestSync false reqNoSession emptyM
      = Except.error PyErr.attributeError ∧
    processRequestAsgi false reqNoSession emptyM
      = ⟨[(3, ⟨some userA, none⟩)], [(3, ⟨some userA, none⟩)]⟩ := by
  constructor <;> rfl

/-- Claim C9 is violated by the code: with the disable flag set, no handler
is registered and nothing is stamped, but process_response executes a bare
return, handing None back instead of the response it was given. -/
theorem disabled_flag_drops_response :
    processRequestSync true reqA emptyM = Except.ok emptyM ∧
    processRequestAsgi true reqA emptyM = emptyM ∧
    processResponseSync true reqA.rid emptyM 42 = (emptyM, none) := by
  refine ⟨rfl, rfl, rfl⟩

/-- Claim C3: for a request whose method is GET, HEAD, OPTIONS or TRACE,
neither interceptor registers any handler (the dispatcher state is
returned unchanged, with no error, whatever the identity or session state),
and a save seen by an empty registration table persists the instance with
no marker field stamped. -/
theorem safe_methods_no_tracking (flag : Bool) (req : Req) (st : MState)
    (reg : Registry) (sender : Nat) (inst : Instance)
    (hm : safeMethods.contains req.method = true) :
    processRequestSync flag req st = Except.ok st ∧
    processRequestAsgi flag req st = st ∧
    (∀ a, persistedPre reg emptyM.pre sender inst a = inst a) := by
  refine ⟨?_, ?_, fun a => rfl⟩
  · cases flag with
    | true => rfl
    | false =>
      unfold processRequestSync
      rw [if_neg Bool.false_ne_true, if_pos hm]
  · cases flag with
    | true => rfl
    | false =>
      unfold processRequestAsgi
      rw [if_neg Bool.false_ne_true, if_pos hm]

/-- Witness for C3 at a concrete GET request with an authenticated user
and a live session. -/
theorem safe_methods_no_tracking_witness :
    safeMethods.contains reqGet.method = true ∧
    processRequestSync false reqGet emptyM = Except.ok emptyM ∧
    processRequestAsgi false reqGet emptyM = emptyM ∧
    (∀ a, persistedPre regAll emptyM.pre 0 inst0 a = inst0 a) := by
  refine ⟨by decide, ?_⟩
  have h := safe_methods_no_tracking false reqGet emptyM regAll 0 inst0 (by decide)
  exact h

theorem update_post_count (reg : Registry) (u : Option User)
    (s : Option String) (sender : Nat) (st : SaveState) :
    (update_post_save_info_common reg u s sender st true).saveCount
      = st.saveCount + (reg.creatingUser sender).length
        + (reg.creatingSession sender).length := by
  simp only [update_post_save_info_common, if_true]
  rw [guardFold_count, guardFold_count]

theorem update_post_inst (reg : Registry) (u : Option User)
    (s : Option String) (sender : Nat) (st : SaveState) :
    (update_post_save_info_common reg u s sender st true).inst
      = setAll (reg.creatingSession sender) (Value.sess s)
          (setAll (reg.creatingUser sender) (Value.ident u) st.inst) := by
  simp only [update_post_save_info_common, if_true]
  rw [guardFold_inst, guardFold_inst]

/-- Claim C1: for a non-safe request with the disable flag unset, the
pre-write receiver registered for that request stamps, on the in-memory
instance handed to the persistence write, every LastModifyingIdentity field
of the exact record type with the captured identity (the request's
authenticated user, or None) and every LastSessionToken field with the
captured session key. -/
theorem preSave_stamps_captured_identity (reg : Registry) (req : Req)
    (s : Sess) (sender : Nat) (inst : Instance)
    (hm : safeMethods.contains req.method = false)
    (hs : req.sessionAttr = some s)
    (hd : ∀ f ∈ reg.lastUser sender, f ∉ reg.lastSession sender) :
    processRequestSync false req emptyM
      = Except.ok ⟨[(req.rid, ⟨captureUser req, s.key⟩)],
                   [(req.rid, ⟨captureUser req, s.key⟩)]⟩ ∧
    (∀ f ∈ reg.lastUser sender,
      persistedPre reg [(req.rid, ⟨captureUser req, s.key⟩)] sender inst f
        = Value.ident (captureUser req)) ∧
    (∀ f ∈ reg.lastSession sender,
      persistedPre reg [(req.rid, ⟨captureUser req, s.key⟩)] sender inst f
        = Value.sess s.key) := by
  refine ⟨?_, ?_, ?_⟩
  · unfold processRequestSync
    rw [if_neg Bool.false_ne_true, if_neg (by rw [hm]; simp), hs]
    simp [connect, emptyM]
  · intro f hf
    exact pre_save_sets_lastUser reg (captureUser req) s.key sender inst f hf
      (hd f hf)
  · intro f hf
    exact pre_save_sets_lastSession reg (captureUser req) s.key sender inst f hf

/-- Witness for C1 at the concrete POST request reqA with session key
abc123 and the registry declaring all four kinds on type 0. -/
theorem preSave_stamps_captured_identity_witness :
    safeMethods.contains reqA.method = false ∧ reqA.sessionAttr = some sessA ∧
    (processRequestSync false reqA emptyM
        = Except.ok ⟨[(reqA.rid, ⟨captureUser reqA, sessA.key⟩)],
                     [(reqA.rid, ⟨captureUser reqA, sessA.key⟩)]⟩ ∧
      (∀ f ∈ regAll.lastUser 0,
        persistedPre regAll [(reqA.rid, ⟨captureUser reqA, sessA.key⟩)] 0 inst0 f
          = Value.ident (captureUser reqA)) ∧
      (∀ f ∈ regAll.lastSession 0,
        persistedPre regAll [(reqA.rid, ⟨captureUser reqA, sessA.key⟩)] 0 inst0 f
          = Value.sess sessA.key)) :=
  ⟨by decide, by decide,
    preSave_stamps_captured_identity regAll reqA sessA 0 inst0 (by decide)
      (by decide) (by decide)⟩

/-- Claim C2: with the disable flag unset, after any of the termination
paths — process_response, process_exception, the ASGI stream completing
with a body message after the start message, or the wrapped ASGI app
raising — zero receivers remain registered under the request's
dispatch_uid in either table. -/
theorem handlers_cleared_on_request_end (req : Req) (st : MState)
    (resp : Nat) (msgs rest : List Msg) (appRaises : Bool)
    (hterm : appRaises = true ∨
      (msgs = Msg.start :: rest ∧ rest.any Msg.isBody = true)) :
    countKey req.rid (processResponseSync false req.rid st resp).1.pre = 0 ∧
    countKey req.rid (processResponseSync false req.rid st resp).1.post = 0 ∧
    countKey req.rid (processExceptionSync false req.rid st).pre = 0 ∧
    countKey req.rid (processExceptionSync false req.rid st).post = 0 ∧
    countKey req.rid (asgiFinish false req msgs appRaises st).pre = 0 ∧
    countKey req.rid (asgiFinish false req msgs appRaises st).post = 0 := by
  have hasgi : countKey req.rid (asgiFinish false req msgs appRaises st).pre = 0 ∧
      countKey req.rid (asgiFinish false req msgs appRaises st).post = 0 := by
    cases appRaises with
    | true =>
      exact cleanup_clears req.rid (runWrapper false req.rid msgs ⟨false, st, 0⟩).st
    | false =>
      rcases hterm with h | ⟨hm, hb⟩
      · exact absurd h (by simp)
      · subst hm
        exact runWrapper_body_clears req.rid rest ⟨true, st, 0⟩ rfl hb
  exact ⟨countKey_disconnect req.rid st.pre, countKey_disconnect req.rid st.post,
    countKey_disconnect req.rid st.pre, countKey_disconnect req.rid st.post,
    hasgi.1, hasgi.2⟩

/-- Witness for C2: reqA's handlers registered in both tables (stAB), a
two-message response stream, the app not raising. -/
theorem handlers_cleared_on_request_end_witness :
    (([Msg.start, Msg.body false] : List Msg) = Msg.start :: [Msg.body false] ∧
      ([Msg.body false] : List Msg).any Msg.isBody = true) ∧
    (countKey reqA.rid (processResponseSync false reqA.rid stAB 7).1.pre = 0 ∧
      countKey reqA.rid (processResponseSync false reqA.rid stAB 7).1.post = 0 ∧
      countKey reqA.rid (processExceptionSync false reqA.rid stAB).pre = 0 ∧
      countKey reqA.rid (processExceptionSync false reqA.rid stAB).post = 0 ∧
      countKey reqA.rid
        (asgiFinish false reqA [Msg.start, Msg.body false] false stAB).pre = 0 ∧
      countKey reqA.rid
        (asgiFinish false reqA [Msg.start, Msg.body false] false stAB).post = 0) :=
  ⟨⟨rfl, rfl⟩,
    handlers_cleared_on_request_end reqA stAB 7 [Msg.start, Msg.body false]
      [Msg.body false] false (Or.inr ⟨rfl, rfl⟩)⟩

/-- Claim C6: a tracked save that creates a record performs, besides the
triggering write, exactly one suppressed nested save per registered
CreatingIdentity field and per registered CreatingSessionToken field of the
exact type (not zero, not looping), leaves each CreatingIdentity field
equal to the captured identity, and a save issued with tracking disabled
does not re-enter the stamping logic at all — it only persists. -/
theorem created_record_stamping (reg : Registry) (user : Option User)
    (session : Option String) (sender : Nat) (st : SaveState)
    (ht : st.tracking = true)
    (hd : ∀ f ∈ reg.creatingUser sender, f ∉ reg.creatingSession sender) :
    (modelSave reg user session sender st true).saveCount
      = st.saveCount + 1 + (reg.creatingUser sender).length
        + (reg.creatingSession sender).length ∧
    (∀ f ∈ reg.creatingUser sender,
      (modelSave reg user session sender st true).inst f = Value.ident user) ∧
    (∀ st2 b, st2.tracking = false →
      modelSave reg user session sender st2 b = nestedSave st2) := by
  have hms : modelSave reg user session sender st true
      = update_post_save_info_common reg user session sender
          (rawPersist
            { st with inst := update_pre_save_info_common reg user session sender st.inst })
          true := by
    unfold modelSave
    rw [if_pos ht]
  refine ⟨?_, ?_, ?_⟩
  · rw [hms, update_post_count]
    rfl
  · intro f hf
    rw [hms, update_post_inst]
    rw [setAll_skips _ _ _ _ (hd f hf)]
    exact setAll_sets _ _ _ _ hf
  · intro st2 b h2
    unfold modelSave
    rw [if_neg (by simp [h2])]

/-- Witness for C6 at the concrete registry regAll (one creating-identity
and one creating-session field on type 0) and a fresh tracked state: one
triggering write plus two nested saves. -/
theorem created_record_stamping_witness :
    st0.tracking = true ∧
    ((modelSave regAll (some userA) (some (r"abc123")) 0 st0 true).saveCount
        = st0.saveCount + 1 + (regAll.creatingUser 0).length
          + (regAll.creatingSession 0).length ∧
      (∀ f ∈ regAll.creatingUser 0,
        (modelSave regAll (some userA) (some (r"abc123")) 0 st0 true).inst f
          = Value.ident (some userA)) ∧
      (∀ st2 b, st2.tracking = false →
        modelSave regAll (some userA) (some (r"abc123")) 0 st2 b
          = nestedSave st2)) :=
  ⟨rfl,
    created_record_stamping regAll (some userA) (some (r"abc123")) 0 st0 rfl
      (by decide)⟩

/-- Claim C7 as stated is false on the code: with requests reqA (userA)
and reqB (userB) simultaneously registered, the dispatcher broadcasts the
pre-write event of a save performed during request A to both receivers, in
registration order, so the LastModifyingIdentity field ends up stamped with
userB's identity, not userA's. -/
theorem concurrent_requests_cross_stamp :
    persistedPre regAll stAB.pre 0 inst0 fldModifiedBy
      = Value.ident (some userB) ∧
    Value.ident (some userB) ≠ Value.ident (some userA) := by
  exact ⟨rfl, by decide⟩

/-- Claim C7 amended: each registered receiver stamps only the identity and
session it closed over at registration — a request whose receiver is alone
in the table gets its own identity and session on every write; but when a
second request registers, every write fires both receivers in registration
order, so the surviving stamps are the later-registered request's identity
and session. -/
theorem handler_stamps_own_captured_values (reg : Registry)
    (u1 u2 : Option User) (s1 s2 : Option String) (k1 k2 : Nat)
    (sender : Nat) (inst : Instance) (f g : String)
    (hf : f ∈ reg.lastUser sender) (hd : f ∉ reg.lastSession sender)
    (hg : g ∈ reg.lastSession sender) (hk : k1 ≠ k2) :
    (persistedPre reg (connect k1 ⟨u1, s1⟩ []) sender inst f
        = Value.ident u1 ∧
      persistedPre reg (connect k1 ⟨u1, s1⟩ []) sender inst g
        = Value.sess s1) ∧
    (persistedPre reg (connect k2 ⟨u2, s2⟩ (connect k1 ⟨u1, s1⟩ [])) sender inst f
        = Value.ident u2 ∧
      persistedPre reg (connect k2 ⟨u2, s2⟩ (connect k1 ⟨u1, s1⟩ [])) sender inst g
        = Value.sess s2) := by
  have h1 : connect k1 ⟨u1, s1⟩ ([] : Dispatcher) = [(k1, ⟨u1, s1⟩)] := by
    simp [connect]
  have h2 : connect k2 ⟨u2, s2⟩ [(k1, (⟨u1, s1⟩ : Handler))]
      = [(k1, ⟨u1, s1⟩), (k2, ⟨u2, s2⟩)] := by
    simp [connect, hk]
  refine ⟨⟨?_, ?_⟩, ?_, ?_⟩
  · rw [h1]
    exact pre_save_sets_lastUser reg u1 s1 sender inst f hf hd
  · rw [h1]
    exact pre_save_sets_lastSession reg u1 s1 sender inst g hg
  · rw [h1, h2]
    exact pre_save_sets_lastUser reg u2 s2 sender
      (update_pre_save_info_common reg u1 s1 sender inst) f hf hd
  · rw [h1, h2]
    exact pre_save_sets_lastSession reg u2 s2 sender
      (update_pre_save_info_common reg u1 s1 sender inst) g hg

/-- Witness for the amended C7 at concrete users, sessions, keys and
registry: sole-registered writes carry userA and abc123, contended writes
carry userB and sB. -/
theorem handler_stamps_own_captured_values_witness :
    fldModifiedBy ∈ regAll.lastUser 0 ∧ fldModifiedBy ∉ regAll.lastSession 0 ∧
    fldLastSess ∈ regAll.lastSession 0 ∧ (1 : Nat) ≠ 2 ∧
    ((persistedPre regAll (connect 1 ⟨some userA, some (r"abc123")⟩ []) 0 inst0
          fldModifiedBy = Value.ident (some userA) ∧
        persistedPre regAll (connect 1 ⟨some userA, some (r"abc123")⟩ []) 0 inst0
          fldLastSess = Value.sess (some (r"abc123"))) ∧
      (persistedPre regAll
          (connect 2 ⟨some userB, some (r"sB")⟩
            (connect 1 ⟨some userA, some (r"abc123")⟩ [])) 0 inst0 fldModifiedBy
          = Value.ident (some userB) ∧
        persistedPre regAll
          (connect 2 ⟨some userB, some (r"sB")⟩
            (connect 1 ⟨some userA, some (r"abc123")⟩ [])) 0 inst0 fldLastSess
          = Value.sess (some (r"sB")))) :=
  ⟨by decide, by decide, by decide, by decide,
    handler_stamps_own_captured_values regAll (some userA) (some userB)
      (some (r"abc123")) (some (r"sB")) 1 2 0 inst0 fldModifiedBy fldLastSess
      (by decide) (by decide) (by decide) (by decide)⟩
